import Mathlib

/-
Shallow embedding of `custom_components/azurespeech_stt/stt.py`, the single
source file of the `azurespeech_stt` repository: a Home Assistant
speech-to-text provider that buffers streamed PCM chunks into a WAV
container and submits it to the Azure Speech SDK.

Modelling conventions:
* Python byte strings are `List Nat` (one `Nat` per byte); chunk streams are
  finite `List` of such byte strings, delivered in order.
* Python attribute semantics: the instance structure has one field per
  attribute name the class code ever reads or writes.  A field holds
  `Option` when some execution path leaves the attribute unassigned;
  reading `none` models the `AttributeError` CPython raises on access to a
  missing attribute.  `__init__` (stt.py lines 47-51) assigns `hass`,
  `_api_key` and `_language` only; the `region` parameter is discarded, so
  `_region` is `none` on every constructed instance.
* The external Azure SDK call `recognize_once_async` is an oracle
  parameter: a function from the constructed recognition request to the
  SDK result.  The `async_timeout.timeout(20)` context is a real-time
  construct and is not given semantics here; the oracle models a call that
  completes.
* Effects are made explicit in the returned `ProcessOutput` record: the
  value returned or the Python exception raised, the list of
  `_LOGGER.error` messages emitted, the list of recognition requests
  actually issued to the network, the WAV buffer built (if any), and the
  provider state after the call.
-/

set_option autoImplicit false

namespace AzureSpeechSTT

/-- A Python `bytes` value: a finite sequence of byte values. -/
abbrev Bytes := List Nat

/-- `homeassistant.components.stt.AudioFormats` (string enum). -/
inductive AudioFormats where
  | wav
  | ogg
  deriving DecidableEq, Repr

/-- `homeassistant.components.stt.AudioCodecs` (string enum). -/
inductive AudioCodecs where
  | pcm
  | opus
  deriving DecidableEq, Repr

/-- `homeassistant.components.stt.AudioBitRates` (integer enum). -/
inductive AudioBitRates where
  | bitrate8
  | bitrate16
  | bitrate24
  | bitrate32
  deriving DecidableEq, Repr

/-- Integer value of an `AudioBitRates` member (it is an `IntEnum`). -/
def AudioBitRates.val : AudioBitRates → Nat
  | .bitrate8 => 8
  | .bitrate16 => 16
  | .bitrate24 => 24
  | .bitrate32 => 32

/-- `homeassistant.components.stt.AudioSampleRates` (integer enum, subset). -/
inductive AudioSampleRates where
  | samplerate8000
  | samplerate16000
  | samplerate44100
  deriving DecidableEq, Repr

/-- Integer value of an `AudioSampleRates` member. -/
def AudioSampleRates.val : AudioSampleRates → Nat
  | .samplerate8000 => 8000
  | .samplerate16000 => 16000
  | .samplerate44100 => 44100

/-- `homeassistant.components.stt.AudioChannels` (integer enum). -/
inductive AudioChannels where
  | channelMono
  | channelStereo
  deriving DecidableEq, Repr

/-- Integer value of an `AudioChannels` member. -/
def AudioChannels.val : AudioChannels → Nat
  | .channelMono => 1
  | .channelStereo => 2

/-- `homeassistant.components.stt.SpeechMetadata`: the per-request audio
metadata handed to `async_process_audio_stream`. -/
structure SpeechMetadata where
  language : String
  format : AudioFormats
  codec : AudioCodecs
  bit_rate : AudioBitRates
  sample_rate : AudioSampleRates
  channel : AudioChannels
  deriving DecidableEq, Repr

/-- `homeassistant.components.stt.SpeechResultState`. -/
inductive SpeechResultState where
  | success
  | error
  deriving DecidableEq, Repr

/-- `homeassistant.components.stt.SpeechResult(text, result)`. -/
structure SpeechResult where
  text : String
  result : SpeechResultState
  deriving DecidableEq, Repr

/-- `azure.cognitiveservices.speech.ResultReason` (subset of members the
mapping logic distinguishes: `RecognizedSpeech` versus everything else). -/
inductive ResultReason where
  | recognizedSpeech
  | noMatch
  | canceled
  deriving DecidableEq, Repr

/-- Python `str()` of a `ResultReason` enum member, as produced by
`str(result.reason)` in stt.py line 121. -/
def ResultReason.toStr : ResultReason → String
  | .recognizedSpeech => "ResultReason.RecognizedSpeech"
  | .noMatch => "ResultReason.NoMatch"
  | .canceled => "ResultReason.Canceled"

/-- The result object returned by the SDK's `recognize_once_async`: the code
reads its `.reason` and `.text` attributes. -/
structure SpeechRecognitionResult where
  reason : ResultReason
  text : String
  deriving DecidableEq, Repr

/-- A Python exception escaping `async_process_audio_stream`. -/
inductive PyError where
  | attributeError (name : String)
  deriving DecidableEq, Repr

/-- The WAV container assembled in stt.py lines 101-108: `wave.open` on a
fresh `io.BytesIO`, `setnchannels` / `setsampwidth` / `setframerate` from
the metadata, then `writeframes(data)`.  The record keeps the header fields
and the PCM payload; the RIFF byte serialisation performed by the `wave`
module is determined by exactly these four values. -/
structure WavBuffer where
  nchannels : Nat
  sampwidth : Nat
  framerate : Nat
  frames : Bytes
  deriving DecidableEq, Repr

/-- The recognition request assembled in stt.py lines 112-114:
`SpeechConfig(subscription=..., region=...)`, `AudioConfig(stream=...)` on
the WAV buffer, and `AutoDetectSourceLanguageConfig(languages=...)`. -/
structure RecognitionRequest where
  subscription : String
  region : String
  audio : WavBuffer
  languages : List String
  deriving DecidableEq, Repr

/-- `AzureSpeechSTTProvider` instance state: one field per instance
attribute the class code touches.  `_region` is `Option` because no code
path assigns it (see `AzureSpeechSTTProvider.init`); reading it while it is
`none` raises `AttributeError`. -/
structure AzureSpeechSTTProvider where
  _api_key : String
  _language : String
  _region : Option String
  deriving DecidableEq, Repr

/-- `AzureSpeechSTTProvider.__init__(self, hass, api_key, lang, region)`
(stt.py lines 47-51): stores `api_key` in `_api_key` and `lang` in
`_language`.  The `region` parameter is never stored — no assignment to
`self._region` exists anywhere in the class — so `_region` is left
unassigned (`none`).  The `hass` handle is opaque and unused by the logic
modelled here. -/
def AzureSpeechSTTProvider.init (api_key : String) (lang : String)
    (_region_arg : String) : AzureSpeechSTTProvider :=
  { _api_key := api_key
    _language := lang
    _region := none }

/-- Python `str.split(sep)` for a single-character separator: split at every
occurrence of `sep`, keeping empty pieces (`"a,,b".split(',') ==
['a','','b']`, `"".split(',') == ['']`). -/
def pySplit (s : String) (sep : Char) : List String :=
  (s.data.splitOn sep).map List.asString

/-- `AzureSpeechSTTProvider.default_language` (stt.py lines 53-56):
`self._language.split(',')[0]`.  `str.split` always returns a non-empty
list, so index 0 is total. -/
def AzureSpeechSTTProvider.default_language
    (self : AzureSpeechSTTProvider) : String :=
  (pySplit self._language ',').headI

/-- `AzureSpeechSTTProvider.supported_languages` (stt.py lines 58-62):
`self._language.split(',')`. -/
def AzureSpeechSTTProvider.supported_languages
    (self : AzureSpeechSTTProvider) : List String :=
  pySplit self._language ','

/-- `supported_formats` property (stt.py lines 64-67). -/
def AzureSpeechSTTProvider.supported_formats
    (_self : AzureSpeechSTTProvider) : List AudioFormats :=
  [.wav]

/-- `supported_codecs` property (stt.py lines 69-72). -/
def AzureSpeechSTTProvider.supported_codecs
    (_self : AzureSpeechSTTProvider) : List AudioCodecs :=
  [.pcm]

/-- `supported_bit_rates` property (stt.py lines 74-77). -/
def AzureSpeechSTTProvider.supported_bit_rates
    (_self : AzureSpeechSTTProvider) : List AudioBitRates :=
  [.bitrate16]

/-- `supported_sample_rates` property (stt.py lines 79-82). -/
def AzureSpeechSTTProvider.supported_sample_rates
    (_self : AzureSpeechSTTProvider) : List AudioSampleRates :=
  [.samplerate16000]

/-- `supported_channels` property (stt.py lines 84-87). -/
def AzureSpeechSTTProvider.supported_channels
    (_self : AzureSpeechSTTProvider) : List AudioChannels :=
  [.channelMono]

/-- The drain loop of stt.py lines 96-99: `data = b''` then
`async for chunk in stream: data += chunk`. -/
def drainStream (stream : List Bytes) : Bytes :=
  stream.foldl (fun data chunk => data ++ chunk) []

/-- Everything observable about one call to `async_process_audio_stream`:
the returned value or escaped exception, the `_LOGGER.error` lines, the
recognition requests issued to the network, the WAV buffer built (if the
code got that far), and the provider state when the call ends. -/
structure ProcessOutput where
  result : Except PyError SpeechResult
  errorLogs : List String
  recognitionCalls : List RecognitionRequest
  wavBuilt : Option WavBuffer
  finalState : AzureSpeechSTTProvider

/-- `AzureSpeechSTTProvider.async_process_audio_stream` (stt.py lines
89-121), with the SDK's `recognize_once_async` supplied as the oracle
`recognize`.

Control flow of the source, line by line:
* lines 92-94: if `metadata.format != AudioFormats.WAV`, log an error and
  return `SpeechResult("", SpeechResultState.ERROR)`;
* lines 96-99: drain the chunk stream into `data`;
* lines 101-110: build the WAV buffer from the metadata header fields
  (`bit_rate // 8` for the sample width) and `data`;
* line 112: `SpeechConfig(subscription=self._api_key, region=self._region)`
  — reading `self._region` raises `AttributeError` when unassigned, before
  any recognizer is created;
* line 114: build the recognizer over the WAV stream with
  `AutoDetectSourceLanguageConfig(languages=self.supported_languages)`;
* lines 116-121: await the single recognition (the 20-second
  `async_timeout` context is real-time and not modelled) and map
  `RecognizedSpeech` to a SUCCESS result carrying `result.text`, anything
  else to an ERROR result carrying `str(result.reason)`. -/
def AzureSpeechSTTProvider.async_process_audio_stream
    (self : AzureSpeechSTTProvider) (metadata : SpeechMetadata)
    (stream : List Bytes)
    (recognize : RecognitionRequest → SpeechRecognitionResult) :
    ProcessOutput :=
  if metadata.format ≠ AudioFormats.wav then
    { result := .ok { text := "", result := .error }
      errorLogs := ["Unsupported audio format"]
      recognitionCalls := []
      wavBuilt := none
      finalState := self }
  else
    let data := drainStream stream
    let wav : WavBuffer :=
      { nchannels := metadata.channel.val
        sampwidth := metadata.bit_rate.val / 8
        framerate := metadata.sample_rate.val
        frames := data }
    match self._region with
    | none =>
        { result := .error (.attributeError "_region")
          errorLogs := []
          recognitionCalls := []
          wavBuilt := some wav
          finalState := self }
    | some region =>
        let req : RecognitionRequest :=
          { subscription := self._api_key
            region := region
            audio := wav
            languages := self.supported_languages }
        let res := recognize req
        if res.reason = ResultReason.recognizedSpeech then
          { result := .ok { text := res.text, result := .success }
            errorLogs := []
            recognitionCalls := [req]
            wavBuilt := some wav
            finalState := self }
        else
          { result := .ok { text := res.reason.toStr, result := .error }
            errorLogs := []
            recognitionCalls := [req]
            wavBuilt := some wav
            finalState := self }

/-! ### Helper lemmas -/

/-- Folding `data += chunk` from any prefix appends the concatenation of the
remaining chunks, in order. -/
theorem foldl_append_eq_append_flatten (a : Bytes) (l : List Bytes) :
    l.foldl (fun data chunk => data ++ chunk) a = a ++ l.flatten := by
  induction l generalizing a with
  | nil => simp
  | cons b t ih => simp [List.foldl, ih]

/-- The drain loop of stt.py lines 96-99 produces exactly the concatenation
of the delivered chunks, in delivery order. -/
theorem drainStream_eq_flatten (stream : List Bytes) :
    drainStream stream = stream.flatten := by
  simpa using foldl_append_eq_append_flatten [] stream

/-! ### Claim theorems -/

/-- C1: for every input whose metadata format equals WAV,
`async_process_audio_stream` on a constructed provider reads the attribute
`_region`, which `__init__` never assigns (the `region` argument is
discarded), so the call raises `AttributeError` after building the WAV
buffer (the buffer exists and already holds the full payload) and before
issuing any recognition call; in particular no success or error-mapping
outcome is ever produced on this path. -/
theorem c1_wav_path_raises_attribute_error
    (api_key lang region : String) (metadata : SpeechMetadata)
    (stream : List Bytes)
    (recognize : RecognitionRequest → SpeechRecognitionResult)
    (hfmt : metadata.format = AudioFormats.wav) :
    ((AzureSpeechSTTProvider.init api_key lang region).async_process_audio_stream
        metadata stream recognize).result
      = .error (.attributeError "_region") ∧
    ((AzureSpeechSTTProvider.init api_key lang region).async_process_audio_stream
        metadata stream recognize).wavBuilt
      = some { nchannels := metadata.channel.val
               sampwidth := metadata.bit_rate.val / 8
               framerate := metadata.sample_rate.val
               frames := stream.flatten } ∧
    ((AzureSpeechSTTProvider.init api_key lang region).async_process_audio_stream
        metadata stream recognize).recognitionCalls = [] := by
  simp [AzureSpeechSTTProvider.async_process_audio_stream,
    AzureSpeechSTTProvider.init, hfmt, drainStream_eq_flatten]

/-- Witness for C1 at a concrete WAV-format input. -/
theorem c1_wav_path_raises_attribute_error_witness :
    ((AzureSpeechSTTProvider.init "key" "en-US" "westus").async_process_audio_stream
        { language := "en-US", format := .wav, codec := .pcm,
          bit_rate := .bitrate16, sample_rate := .samplerate16000,
          channel := .channelMono }
        [[0, 1]] (fun _ => { reason := .recognizedSpeech, text := "hi" })).result
      = .error (.attributeError "_region") ∧
    ((AzureSpeechSTTProvider.init "key" "en-US" "westus").async_process_audio_stream
        { language := "en-US", format := .wav, codec := .pcm,
          bit_rate := .bitrate16, sample_rate := .samplerate16000,
          channel := .channelMono }
        [[0, 1]] (fun _ => { reason := .recognizedSpeech, text := "hi" })).wavBuilt
      = some { nchannels := 1, sampwidth := 2, framerate := 16000,
               frames := [0, 1] } ∧
    ((AzureSpeechSTTProvider.init "key" "en-US" "westus").async_process_audio_stream
        { language := "en-US", format := .wav, codec := .pcm,
          bit_rate := .bitrate16, sample_rate := .samplerate16000,
          channel := .channelMono }
        [[0, 1]] (fun _ => { reason := .recognizedSpeech, text := "hi" })).recognitionCalls
      = [] :=
  c1_wav_path_raises_attribute_error "key" "en-US" "westus"
    { language := "en-US", format := .wav, codec := .pcm,
      bit_rate := .bitrate16, sample_rate := .samplerate16000,
      channel := .channelMono }
    [[0, 1]] (fun _ => { reason := .recognizedSpeech, text := "hi" }) rfl

/-- C2 (code evaluation at the failing input): with WAV metadata and an
oracle whose recognition result has reason `RecognizedSpeech` and text
`"hello world"`, the code does not return a Success outcome carrying that
text — it raises `AttributeError` on the unassigned `_region` before the
recognition call is ever issued. -/
theorem c2_recognized_speech_branch_unreached :
    ((AzureSpeechSTTProvider.init "key" "en-US" "westus").async_process_audio_stream
        { language := "en-US", format := .wav, codec := .pcm,
          bit_rate := .bitrate16, sample_rate := .samplerate16000,
          channel := .channelMono }
        [[0, 1], [2, 3]]
        (fun _ => { reason := .recognizedSpeech, text := "hello world" })).result
      = .error (.attributeError "_region") ∧
    ((AzureSpeechSTTProvider.init "key" "en-US" "westus").async_process_audio_stream
        { language := "en-US", format := .wav, codec := .pcm,
          bit_rate := .bitrate16, sample_rate := .samplerate16000,
          channel := .channelMono }
        [[0, 1], [2, 3]]
        (fun _ => { reason := .recognizedSpeech, text := "hello world" })).result
      ≠ .ok { text := "hello world", result := .success } := by
  constructor
  · rfl
  · intro h
    simp [AzureSpeechSTTProvider.async_process_audio_stream,
      AzureSpeechSTTProvider.init, drainStream] at h

/-- C3: for every metadata whose format is not WAV, the call returns (does
not raise) an Error outcome with empty transcript text, emits an
error-level log line, issues no recognition request, and never even builds
the WAV buffer. -/
theorem c3_non_wav_is_local_error_outcome
    (self : AzureSpeechSTTProvider) (metadata : SpeechMetadata)
    (stream : List Bytes)
    (recognize : RecognitionRequest → SpeechRecognitionResult)
    (hfmt : metadata.format ≠ AudioFormats.wav) :
    (self.async_process_audio_stream metadata stream recognize).result
      = .ok { text := "", result := .error } ∧
    (self.async_process_audio_stream metadata stream recognize).errorLogs
      = ["Unsupported audio format"] ∧
    (self.async_process_audio_stream metadata stream recognize).recognitionCalls
      = [] ∧
    (self.async_process_audio_stream metadata stream recognize).wavBuilt
      = none := by
  simp [AzureSpeechSTTProvider.async_process_audio_stream, hfmt]

/-- Witness for C3 at a concrete OGG-format input. -/
theorem c3_non_wav_is_local_error_outcome_witness :
    ((AzureSpeechSTTProvider.init "key" "en-US" "westus").async_process_audio_stream
        { language := "en-US", format := .ogg, codec := .opus,
          bit_rate := .bitrate16, sample_rate := .samplerate16000,
          channel := .channelMono }
        [[9, 9]] (fun _ => { reason := .noMatch, text := "" })).result
      = .ok { text := "", result := .error } ∧
    ((AzureSpeechSTTProvider.init "key" "en-US" "westus").async_process_audio_stream
        { language := "en-US", format := .ogg, codec := .opus,
          bit_rate := .bitrate16, sample_rate := .samplerate16000,
          channel := .channelMono }
        [[9, 9]] (fun _ => { reason := .noMatch, text := "" })).errorLogs
      = ["Unsupported audio format"] ∧
    ((AzureSpeechSTTProvider.init "key" "en-US" "westus").async_process_audio_stream
        { language := "en-US", format := .ogg, codec := .opus,
          bit_rate := .bitrate16, sample_rate := .samplerate16000,
          channel := .channelMono }
        [[9, 9]] (fun _ => { reason := .noMatch, text := "" })).recognitionCalls
      = [] ∧
    ((AzureSpeechSTTProvider.init "key" "en-US" "westus").async_process_audio_stream
        { language := "en-US", format := .ogg, codec := .opus,
          bit_rate := .bitrate16, sample_rate := .samplerate16000,
          channel := .channelMono }
        [[9, 9]] (fun _ => { reason := .noMatch, text := "" })).wavBuilt
      = none :=
  c3_non_wav_is_local_error_outcome
    (AzureSpeechSTTProvider.init "key" "en-US" "westus")
    { language := "en-US", format := .ogg, codec := .opus,
      bit_rate := .bitrate16, sample_rate := .samplerate16000,
      channel := .channelMono }
    [[9, 9]] (fun _ => { reason := .noMatch, text := "" }) (by decide)

/-- C4: for every finite chunk stream and every provider state, when the
metadata format is WAV the WAV buffer is built and its PCM payload equals
the concatenation of all chunks in delivery order — no chunk dropped,
duplicated or reordered; the whole stream is drained into the buffer
before anything else happens. -/
theorem c4_drain_exhaustive_order_preserving
    (self : AzureSpeechSTTProvider) (metadata : SpeechMetadata)
    (stream : List Bytes)
    (recognize : RecognitionRequest → SpeechRecognitionResult)
    (hfmt : metadata.format = AudioFormats.wav) :
    (self.async_process_audio_stream metadata stream recognize).wavBuilt.map
        WavBuffer.frames
      = some stream.flatten := by
  unfold AzureSpeechSTTProvider.async_process_audio_stream
  (repeat' split) <;> simp_all [drainStream_eq_flatten]
  refine ⟨{ nchannels := metadata.channel.val,
            sampwidth := metadata.bit_rate.val / 8,
            framerate := metadata.sample_rate.val,
            frames := stream.flatten }, ?_, rfl⟩
  split <;> rfl

/-- Witness for C4: delivery order `[A, B, C]` yields payload `A‖B‖C`. -/
theorem c4_drain_exhaustive_order_preserving_witness :
    ((AzureSpeechSTTProvider.init "key" "en-US" "westus").async_process_audio_stream
        { language := "en-US", format := .wav, codec := .pcm,
          bit_rate := .bitrate16, sample_rate := .samplerate16000,
          channel := .channelMono }
        [[10, 11], [20], [30, 31]]
        (fun _ => { reason := .noMatch, text := "" })).wavBuilt.map
        WavBuffer.frames
      = some [10, 11, 20, 30, 31] :=
  c4_drain_exhaustive_order_preserving
    (AzureSpeechSTTProvider.init "key" "en-US" "westus")
    { language := "en-US", format := .wav, codec := .pcm,
      bit_rate := .bitrate16, sample_rate := .samplerate16000,
      channel := .channelMono }
    [[10, 11], [20], [30, 31]]
    (fun _ => { reason := .noMatch, text := "" }) rfl

/-- C5: for valid WAV metadata (mono, 16-bit, 16000 Hz) and the chunk
stream `[b"\x00\x01", b"\x02\x03"]`, the constructed WAV buffer has PCM
payload `b"\x00\x01\x02\x03"` and header fields channels = 1, sample
width = 2 (bit depth divided by 8) and frame rate = 16000, each taken from
the metadata. -/
theorem c5_wav_header_and_payload :
    ((AzureSpeechSTTProvider.init "key" "en-US" "westus").async_process_audio_stream
        { language := "en-US", format := .wav, codec := .pcm,
          bit_rate := .bitrate16, sample_rate := .samplerate16000,
          channel := .channelMono }
        [[0x00, 0x01], [0x02, 0x03]]
        (fun _ => { reason := .recognizedSpeech, text := "" })).wavBuilt
      = some { nchannels := 1, sampwidth := 2, framerate := 16000,
               frames := [0x00, 0x01, 0x02, 0x03] } := rfl

/-- C6: for a provider configured with languages `"en-US,fr-FR"`,
`supported_languages` is the ordered list `["en-US", "fr-FR"]` and
`default_language` is `"en-US"`; in general `supported_languages` is the
full comma-split of the configured languages string and
`default_language` is its first element. -/
theorem c6_language_derivations (api_key region lang : String) :
    (AzureSpeechSTTProvider.init api_key "en-US,fr-FR" region).supported_languages
      = ["en-US", "fr-FR"] ∧
    (AzureSpeechSTTProvider.init api_key "en-US,fr-FR" region).default_language
      = "en-US" ∧
    (AzureSpeechSTTProvider.init api_key lang region).supported_languages
      = pySplit lang ',' ∧
    (AzureSpeechSTTProvider.init api_key lang region).default_language
      = ((AzureSpeechSTTProvider.init api_key lang region).supported_languages).headI :=
  ⟨rfl, rfl, rfl, rfl⟩

/-- C7 (code evaluation at the failing input): with WAV metadata and an
oracle whose recognition result has the non-success reason `NoMatch`, the
code does not return an Error outcome carrying the stringified reason — it
raises `AttributeError` on the unassigned `_region` and issues no
recognition call at all. -/
theorem c7_error_mapping_branch_unreached :
    ((AzureSpeechSTTProvider.init "key" "en-US" "westus").async_process_audio_stream
        { language := "en-US", format := .wav, codec := .pcm,
          bit_rate := .bitrate16, sample_rate := .samplerate16000,
          channel := .channelMono }
        [[5, 6]] (fun _ => { reason := .noMatch, text := "" })).result
      = .error (.attributeError "_region") ∧
    ((AzureSpeechSTTProvider.init "key" "en-US" "westus").async_process_audio_stream
        { language := "en-US", format := .wav, codec := .pcm,
          bit_rate := .bitrate16, sample_rate := .samplerate16000,
          channel := .channelMono }
        [[5, 6]] (fun _ => { reason := .noMatch, text := "" })).result
      ≠ .ok { text := ResultReason.toStr .noMatch, result := .error } ∧
    ((AzureSpeechSTTProvider.init "key" "en-US" "westus").async_process_audio_stream
        { language := "en-US", format := .wav, codec := .pcm,
          bit_rate := .bitrate16, sample_rate := .samplerate16000,
          channel := .channelMono }
        [[5, 6]] (fun _ => { reason := .noMatch, text := "" })).recognitionCalls
      = [] := by
  refine ⟨rfl, ?_, rfl⟩
  intro h
  simp [AzureSpeechSTTProvider.async_process_audio_stream,
    AzureSpeechSTTProvider.init, drainStream] at h

/-- C9: the five capability-advertisement properties are pure functions of
the instance returning the same constants on every read: WAV, PCM, 16-bit,
16000 Hz, mono. -/
theorem c9_capability_constants (self : AzureSpeechSTTProvider) :
    self.supported_formats = [.wav] ∧
    self.supported_codecs = [.pcm] ∧
    self.supported_bit_rates = [.bitrate16] ∧
    self.supported_sample_rates = [.samplerate16000] ∧
    self.supported_channels = [.channelMono] :=
  ⟨rfl, rfl, rfl, rfl, rfl⟩

/-- C10: every invocation of `async_process_audio_stream` leaves the
provider state (the stored api key and language configuration, and the
still-unassigned `_region`) exactly as it was, on every control path; the
provider type holds no audio or per-request field, so nothing from the
request outlives the invocation. -/
theorem c10_provider_state_unchanged
    (self : AzureSpeechSTTProvider) (metadata : SpeechMetadata)
    (stream : List Bytes)
    (recognize : RecognitionRequest → SpeechRecognitionResult) :
    (self.async_process_audio_stream metadata stream recognize).finalState
      = self := by
  unfold AzureSpeechSTTProvider.async_process_audio_stream
  (repeat' split) <;> try rfl
  dsimp only
  split <;> rfl

end AzureSpeechSTT
